import Mathlib

/-!
# GOptionPane (StanfordCPPLib/graphics/goptionpane.cpp)

A shallow embedding of the dialog facade `GOptionPane`.  Every operation of the
source file is translated into a Lean function over an explicit model of the
two things the C++ code talks to:

* the GUI toolkit, which is given as a value `Toolkit` holding what each modal
  dialog reports back (the user's interaction), and
* the effects of an operation, which are collected in a `Dialog` value: the
  list of modal dialogs that were presented, in order, together with either
  the message of the fatal error that stopped the operation or its result.
-/

namespace GOptionPane

/-! ## Library and toolkit vocabulary used by the source file -/

/-- Handle of a widget; a `QWidget*` is an `Option QWidget`, `none` being `nullptr`. -/
abbrev QWidget := Nat

/-- Modelled from the spec: the enumeration `GOptionPane::ConfirmType` is declared in
goptionpane.h, which is not among the sources.  The spec lists its enumerators
(`YES_NO | YES_NO_CANCEL | OK_CANCEL`) and speaks of "any other value"; an object of a
C++ enumeration type can hold such a value, which is `illegal raw` here (`raw` is an
integer that is the value of none of the three enumerators). -/
inductive ConfirmType where
  | YES_NO
  | YES_NO_CANCEL
  | OK_CANCEL
  | illegal (raw : Int)
  deriving DecidableEq, Repr

/-- Modelled from the spec: the enumeration `GOptionPane::ConfirmResult` of goptionpane.h
(not among the sources), with the enumerators the spec lists, which are also the only
ones the source file mentions. -/
inductive ConfirmResult where
  | YES
  | NO
  | CANCEL
  deriving DecidableEq, Repr

/-- Modelled from the spec: the enumeration `GOptionPane::MessageType` of goptionpane.h
(not among the sources): the six enumerators of the spec, and `illegal raw` for an
object of the enumeration type holding any other value. -/
inductive MessageType where
  | PLAIN
  | INFORMATION
  | ERROR
  | WARNING
  | QUESTION
  | ABOUT
  | illegal (raw : Int)
  deriving DecidableEq, Repr

/-- Qt's `QLineEdit::EchoMode`. -/
inductive EchoMode where
  | Normal
  | NoEcho
  | Password
  | PasswordEchoOnEdit
  deriving DecidableEq, Repr

/-- Qt's `QMessageBox::ButtonRole` (the roles a custom button can be added with). -/
inductive ButtonRole where
  | InvalidRole
  | AcceptRole
  | RejectRole
  | DestructiveRole
  | ActionRole
  | HelpRole
  | YesRole
  | NoRole
  | ResetRole
  | ApplyRole
  deriving DecidableEq, Repr

/-- Qt's `Qt::WidgetAttribute`, as far as the source file uses it. -/
inductive WidgetAttribute where
  | WA_QuitOnClose
  deriving DecidableEq, Repr

/-- Qt's `QString::fromStdString`; texts are `String` on both sides of the boundary. -/
def QString.fromStdString (s : String) : String := s

/-- Qt's `QString::toStdString`. -/
def QString.toStdString (s : String) : String := s

/-- A `QMessageBox` object as the source file configures it before `exec()`. -/
structure QMessageBox where
  parent : Option QWidget
  text : String
  windowTitle : String
  attributes : List (WidgetAttribute × Bool)
  customButtons : List (String × ButtonRole)
  deriving DecidableEq, Repr

namespace QMessageBox

/-- Value of Qt's `QMessageBox::Ok` (`QMessageBox::StandardButton`, 0x00000400). -/
def Ok : Nat := 0x00000400
/-- Value of Qt's `QMessageBox::Yes` (0x00004000). -/
def Yes : Nat := 0x00004000
/-- Value of Qt's `QMessageBox::No` (0x00010000). -/
def No : Nat := 0x00010000
/-- Value of Qt's `QMessageBox::Cancel` (0x00400000). -/
def Cancel : Nat := 0x00400000

/-- Qt's `QFlags::testFlag`: whether the flag set `buttons` (a
`QMessageBox::StandardButtons`) holds `button`. -/
def testFlag (buttons button : Nat) : Bool :=
  (buttons &&& button) == button && (button != 0 || buttons == button)

/-- The default-constructed `QMessageBox box;`. -/
def new : QMessageBox :=
  { parent := none, text := "", windowTitle := "", attributes := [], customButtons := [] }

/-- The call `box.setParent(parent)`. -/
def setParent (box : QMessageBox) (parent : QWidget) : QMessageBox :=
  { box with parent := some parent }

/-- The call `box.setText(text)`. -/
def setText (box : QMessageBox) (text : String) : QMessageBox :=
  { box with text := text }

/-- The call `box.setWindowTitle(title)`. -/
def setWindowTitle (box : QMessageBox) (title : String) : QMessageBox :=
  { box with windowTitle := title }

/-- The call `box.setAttribute(attr, enabled)`. -/
def setAttribute (box : QMessageBox) (attr : WidgetAttribute) (enabled : Bool) : QMessageBox :=
  { box with attributes := box.attributes ++ [(attr, enabled)] }

/-- The call `box.addButton(text, role)`: the new button comes after the earlier ones. -/
def addButton (box : QMessageBox) (text : String) (role : ButtonRole) : QMessageBox :=
  { box with customButtons := box.customButtons ++ [(text, role)] }

end QMessageBox

/-- A modal dialog handed to the toolkit, with the arguments of the call. -/
inductive Presented where
  | question (parent : Option QWidget) (title text : String) (buttons defaultButton : Nat)
  | getText (parent : Option QWidget) (title prompt : String) (echo : EchoMode) (text : String)
  | information (parent : Option QWidget) (title text : String)
  | warning (parent : Option QWidget) (title text : String)
  | critical (parent : Option QWidget) (title text : String)
  | about (parent : Option QWidget) (title text : String)
  | exec (box : QMessageBox)
  deriving DecidableEq, Repr

/-- What the toolkit reports back from the dialogs that have a result: the user's
interaction, as a function of the dialog that was presented. -/
structure Toolkit where
  /-- the `int` that `QMessageBox::question` reports -/
  question : Option QWidget → String → String → Nat → Nat → Int
  /-- the text that `QInputDialog::getText` reports -/
  getText : Option QWidget → String → String → EchoMode → String → String
  /-- the `int` that `QMessageBox::exec` reports -/
  exec : QMessageBox → Int

/-! ## Effects -/

/-- An operation that has run: the dialogs it presented, in order, and how it
ended, with the message of a fatal error or with a value. -/
structure Dialog (α : Type) where
  presented : List Presented
  result : Except String α

namespace Dialog

/-- Sequencing: the second part runs only when the first one returned. -/
def andThen {α β : Type} (x : Dialog α) (f : α → Dialog β) : Dialog β :=
  match x.result with
  | Except.error e => { presented := x.presented, result := Except.error e }
  | Except.ok a => { presented := x.presented ++ (f a).presented, result := (f a).result }

instance : Monad Dialog where
  pure a := { presented := [], result := Except.ok a }
  bind := andThen

/-- Hand one dialog to the toolkit, whose answer is `answer`. -/
def present {α : Type} (dialog : Presented) (answer : α) : Dialog α :=
  { presented := [dialog], result := Except.ok answer }

end Dialog

/-- Modelled from the spec: `error` of error.h (not among the sources), the fatal-error
reporter, which "accepts a message and terminates the current operation/process": the
operation ends there, with the message. -/
def error {α : Type} (msg : String) : Dialog α :=
  { presented := [], result := Except.error msg }

/-- Modelled from the spec: `GThread::runOnQtGuiThread` of gthread.h (not among the
sources), which "accepts a zero-argument unit of work and guarantees it executes on the
UI thread, blocking the submitter until done". -/
def runOnQtGuiThread {α : Type} (func : Dialog α) : Dialog α := func

/-- Modelled from the spec: `Vector<std::string>::operator[]` of the library's vector.h
(not among the sources), which yields "the option text at the resulting index".  For an
index outside `[0, size)`, which the only caller excludes before the call, the model
reports a fatal error. -/
def Vector.get (v : List String) (index : Int) : Dialog String :=
  if index < 0 ∨ index ≥ (v.length : Int) then
    error "Vector::operator []: index out of range"
  else
    match v[index.toNat]? with
    | some s => pure s
    | none => error "Vector::operator []: index out of range"

/-! ## The toolkit calls of the source file -/

/-- The call `QMessageBox::question(parent, title, text, buttons, defaultButton)`: the
question dialog is presented and the toolkit reports the button, as an `int`. -/
def QMessageBox.question (tk : Toolkit) (parent : Option QWidget) (title text : String)
    (buttons defaultButton : Nat) : Dialog Int :=
  Dialog.present (Presented.question parent title text buttons defaultButton)
    (tk.question parent title text buttons defaultButton)

/-- The call `QInputDialog::getText(parent, title, prompt, echo, text)`: the text prompt
is presented and the toolkit reports the text. -/
def QInputDialog.getText (tk : Toolkit) (parent : Option QWidget) (title prompt : String)
    (echo : EchoMode) (text : String) : Dialog String :=
  Dialog.present (Presented.getText parent title prompt echo text)
    (tk.getText parent title prompt echo text)

/-- The call `QMessageBox::information(parent, title, text)`, its result dropped. -/
def QMessageBox.information (parent : Option QWidget) (title text : String) : Dialog Unit :=
  Dialog.present (Presented.information parent title text) ()

/-- The call `QMessageBox::warning(parent, title, text)`, its result dropped. -/
def QMessageBox.warning (parent : Option QWidget) (title text : String) : Dialog Unit :=
  Dialog.present (Presented.warning parent title text) ()

/-- The call `QMessageBox::critical(parent, title, text)`, its result dropped. -/
def QMessageBox.critical (parent : Option QWidget) (title text : String) : Dialog Unit :=
  Dialog.present (Presented.critical parent title text) ()

/-- The call `QMessageBox::about(parent, title, text)`. -/
def QMessageBox.about (parent : Option QWidget) (title text : String) : Dialog Unit :=
  Dialog.present (Presented.about parent title text) ()

/-- The call `box.exec()`: the box is run and the toolkit reports an `int`. -/
def QMessageBox.exec (tk : Toolkit) (box : QMessageBox) : Dialog Int :=
  Dialog.present (Presented.exec box) (tk.exec box)

/-! ## The operations of goptionpane.cpp -/

/-- The overload `showConfirmDialog(QWidget* parent, message, title, type)`. -/
def showConfirmDialog (tk : Toolkit) (parent : Option QWidget) (message title : String)
    (type : ConfirmType) : Dialog ConfirmResult := do
  if type ≠ ConfirmType.YES_NO
      ∧ type ≠ ConfirmType.YES_NO_CANCEL
      ∧ type ≠ ConfirmType.OK_CANCEL then
    error "GOptionPane::showConfirmDialog: Illegal dialog type"
  let titleToUse : String := if title.isEmpty then "Select an option" else title
  -- convert our enum types to Qt's button enum type
  let mut buttons : Nat := 0
  let mut defaultButton : Nat := QMessageBox.Cancel
  if type = ConfirmType.YES_NO then
    buttons := QMessageBox.Yes ||| QMessageBox.No
    defaultButton := QMessageBox.No
  else if type = ConfirmType.YES_NO_CANCEL then
    buttons := QMessageBox.Yes ||| QMessageBox.No ||| QMessageBox.Cancel
  else if type = ConfirmType.OK_CANCEL then
    buttons := QMessageBox.Ok ||| QMessageBox.Cancel
  let mut confirmResult : ConfirmResult := ConfirmResult.CANCEL
  confirmResult ← runOnQtGuiThread do
    let dialogResult : Int ← QMessageBox.question tk parent
      (QString.fromStdString titleToUse)
      (QString.fromStdString message)
      buttons
      defaultButton
    if dialogResult = (QMessageBox.Yes : Int) then
      pure ConfirmResult.YES
    else if dialogResult = (QMessageBox.No : Int) then
      pure ConfirmResult.NO
    else
      pure ConfirmResult.CANCEL
  return confirmResult

/-- The overload `showConfirmDialog(message, title, type)`, which forwards with no parent. -/
def showConfirmDialogNoParent (tk : Toolkit) (message title : String)
    (type : ConfirmType) : Dialog ConfirmResult :=
  showConfirmDialog tk none message title type

/-- The overload `showInputDialog(QWidget* parent, message, title, initialValue)`. -/
def showInputDialog (tk : Toolkit) (parent : Option QWidget)
    (message title initialValue : String) : Dialog String := do
  let titleToUse : String := if title.isEmpty then "Type a value" else title
  let mut result : String := ""
  result ← runOnQtGuiThread do
    let text : String ← QInputDialog.getText tk parent
      (QString.fromStdString titleToUse)
      (QString.fromStdString message)
      EchoMode.Normal
      (QString.fromStdString initialValue)
    pure (QString.toStdString text)
  return result

/-- The overload `showInputDialog(message, title, initialValue)`, which forwards with no
parent. -/
def showInputDialogNoParent (tk : Toolkit) (message title initialValue : String) :
    Dialog String :=
  showInputDialog tk none message title initialValue

/-- The overload `showMessageDialog(QWidget* parent, message, title, type)`.  What the
message boxes report back is dropped by the source, so no `Toolkit` is consulted. -/
def showMessageDialog (parent : Option QWidget) (message title : String)
    (type : MessageType) : Dialog Unit := do
  if type ≠ MessageType.PLAIN
      ∧ type ≠ MessageType.INFORMATION
      ∧ type ≠ MessageType.ERROR
      ∧ type ≠ MessageType.WARNING
      ∧ type ≠ MessageType.QUESTION
      ∧ type ≠ MessageType.ABOUT then
    error "GOptionPane::showMessageDialog: Illegal dialog type"
  let titleToUse : String := if title.isEmpty then "Message" else title
  runOnQtGuiThread do
    if type = MessageType.PLAIN
        ∨ type = MessageType.INFORMATION
        ∨ type = MessageType.QUESTION then
      QMessageBox.information parent (QString.fromStdString titleToUse)
        (QString.fromStdString message)
    else if type = MessageType.WARNING then
      QMessageBox.warning parent (QString.fromStdString titleToUse)
        (QString.fromStdString message)
    else if type = MessageType.ERROR then
      QMessageBox.critical parent (QString.fromStdString titleToUse)
        (QString.fromStdString message)
    else if type = MessageType.ABOUT then
      QMessageBox.about parent (QString.fromStdString titleToUse)
        (QString.fromStdString message)

/-- The overload `showMessageDialog(message, title, type)`, which forwards with no
parent. -/
def showMessageDialogNoParent (message title : String) (type : MessageType) : Dialog Unit :=
  showMessageDialog none message title type

/-- The overload `showOptionDialog(QWidget* parent, message, options, title,
initiallySelected)`.  The enumerator `GOptionPane::InternalResult::CLOSED_OPTION` is
declared in goptionpane.h, which is not among the sources: its value is the parameter
`CLOSED_OPTION`. -/
def showOptionDialog (CLOSED_OPTION : Int) (tk : Toolkit) (parent : Option QWidget)
    (message : String) (options : List String) (title initiallySelected : String) :
    Dialog String := do
  let titleToUse : String := if title.isEmpty then "Select an option" else title
  let mut box : QMessageBox := QMessageBox.new
  match parent with
  | some p => box := box.setParent p
  | none => pure ()
  box := box.setText (QString.fromStdString message)
  box := box.setWindowTitle (QString.fromStdString titleToUse)
  box := box.setAttribute WidgetAttribute.WA_QuitOnClose false
  box := options.foldl
    (fun b option => b.addButton (QString.fromStdString option) ButtonRole.ActionRole) box
  if !initiallySelected.isEmpty then
    -- TODO: dunno how to set initially selected button properly
    pure ()
  let mut result : String := ""
  result ← runOnQtGuiThread do
    let index : Int ← QMessageBox.exec tk box
    if index = CLOSED_OPTION ∨ index < 0 ∨ index ≥ (options.length : Int) then
      pure ""
    else
      Vector.get options index
  return result

/-- The overload `showOptionDialog(message, options, title, initiallySelected)`, which
forwards with no parent. -/
def showOptionDialogNoParent (CLOSED_OPTION : Int) (tk : Toolkit) (message : String)
    (options : List String) (title initiallySelected : String) : Dialog String :=
  showOptionDialog CLOSED_OPTION tk none message options title initiallySelected

/-- The overload `showTextFileDialog(message, title, rows, cols)`.  Its call
`showMessageDialog(message, titleToUse)` leaves the `type` argument to the default that
goptionpane.h (not among the sources) declares: that default is the parameter
`defaultType`. -/
def showTextFileDialogNoParent (defaultType : MessageType) (message title : String)
    (_rows _cols : Int) : Dialog Unit := do
  let titleToUse : String := if title.isEmpty then "Text file contents" else title
  showMessageDialogNoParent message titleToUse defaultType
  -- TODO
  error "GOptionPane::showTextFileDialog: not implemented"

/-- The overload `showTextFileDialog(QWidget* parent, message, title, rows, cols)`, with
the same parameter `defaultType` for its call `showMessageDialog(parent, message,
titleToUse)`. -/
def showTextFileDialog (defaultType : MessageType) (parent : Option QWidget)
    (message title : String) (_rows _cols : Int) : Dialog Unit := do
  let titleToUse : String := if title.isEmpty then "Text file contents" else title
  showMessageDialog parent message titleToUse defaultType
  -- TODO
  error "GOptionPane::showTextFileDialog: not implemented"

/-! ## Vocabulary of the statements -/

/-- The title of a presented dialog, as the toolkit received it. -/
def Presented.title : Presented → String
  | Presented.question _ title _ _ _ => title
  | Presented.getText _ title _ _ _ => title
  | Presented.information _ title _ => title
  | Presented.warning _ title _ => title
  | Presented.critical _ title _ => title
  | Presented.about _ title _ => title
  | Presented.exec box => box.windowTitle

/-- The message box that `showOptionDialog` has built when it calls `exec()`, in closed
form. -/
def optionBox (parent : Option QWidget) (message titleToUse : String) (options : List String) :
    QMessageBox :=
  { parent := parent
    text := message
    windowTitle := titleToUse
    attributes := [(WidgetAttribute.WA_QuitOnClose, false)]
    customButtons := options.map (fun option => (option, ButtonRole.ActionRole)) }

/-- A user interaction that answers every question dialog and every message box run with
`exec()` with the code `code`. -/
def Toolkit.reporting (code : Int) : Toolkit :=
  { question := fun _ _ _ _ _ => code
    getText := fun _ _ _ _ _ => ""
    exec := fun _ => code }

/-- A user interaction that submits every text prompt unmodified. -/
def Toolkit.submitting : Toolkit :=
  { question := fun _ _ _ _ _ => 0
    getText := fun _ _ _ _ text => text
    exec := fun _ => 0 }

/-! ## Evaluation lemmas -/

theorem Dialog.pure_def {α : Type} (a : α) :
    (pure a : Dialog α) = { presented := [], result := Except.ok a } := rfl

theorem Dialog.bind_def {α β : Type} (x : Dialog α) (f : α → Dialog β) :
    (x >>= f) = Dialog.andThen x f := rfl

theorem showConfirmDialog_illegal (tk : Toolkit) (parent : Option QWidget)
    (message title : String) (raw : Int) :
    showConfirmDialog tk parent message title (ConfirmType.illegal raw) =
      { presented := []
        result := Except.error "GOptionPane::showConfirmDialog: Illegal dialog type" } := by
  simp [showConfirmDialog, Dialog.bind_def, Dialog.andThen, error]

theorem showConfirmDialog_YES_NO (tk : Toolkit) (parent : Option QWidget)
    (message title : String) :
    showConfirmDialog tk parent message title ConfirmType.YES_NO =
      { presented :=
          [Presented.question parent (if title.isEmpty then "Select an option" else title)
            message (QMessageBox.Yes ||| QMessageBox.No) QMessageBox.No]
        result := Except.ok
          (if tk.question parent (if title.isEmpty then "Select an option" else title)
              message (QMessageBox.Yes ||| QMessageBox.No) QMessageBox.No
              = (QMessageBox.Yes : Int) then ConfirmResult.YES
            else if tk.question parent (if title.isEmpty then "Select an option" else title)
              message (QMessageBox.Yes ||| QMessageBox.No) QMessageBox.No
              = (QMessageBox.No : Int) then ConfirmResult.NO
            else ConfirmResult.CANCEL) } := by
  simp only [showConfirmDialog, Dialog.pure_def, Dialog.bind_def, Dialog.andThen,
    Dialog.present, QMessageBox.question, QInputDialog.getText,
      QMessageBox.information, QMessageBox.warning, QMessageBox.critical, QMessageBox.about,
      runOnQtGuiThread, QString.fromStdString]
  simp
  split_ifs <;> simp

theorem showConfirmDialog_YES_NO_CANCEL (tk : Toolkit) (parent : Option QWidget)
    (message title : String) :
    showConfirmDialog tk parent message title ConfirmType.YES_NO_CANCEL =
      { presented :=
          [Presented.question parent (if title.isEmpty then "Select an option" else title)
            message (QMessageBox.Yes ||| QMessageBox.No ||| QMessageBox.Cancel)
            QMessageBox.Cancel]
        result := Except.ok
          (if tk.question parent (if title.isEmpty then "Select an option" else title)
              message (QMessageBox.Yes ||| QMessageBox.No ||| QMessageBox.Cancel)
              QMessageBox.Cancel = (QMessageBox.Yes : Int) then ConfirmResult.YES
            else if tk.question parent (if title.isEmpty then "Select an option" else title)
              message (QMessageBox.Yes ||| QMessageBox.No ||| QMessageBox.Cancel)
              QMessageBox.Cancel = (QMessageBox.No : Int) then ConfirmResult.NO
            else ConfirmResult.CANCEL) } := by
  simp only [showConfirmDialog, Dialog.pure_def, Dialog.bind_def, Dialog.andThen,
    Dialog.present, QMessageBox.question, QInputDialog.getText,
      QMessageBox.information, QMessageBox.warning, QMessageBox.critical, QMessageBox.about,
      runOnQtGuiThread, QString.fromStdString]
  simp
  split_ifs <;> simp

theorem showConfirmDialog_OK_CANCEL (tk : Toolkit) (parent : Option QWidget)
    (message title : String) :
    showConfirmDialog tk parent message title ConfirmType.OK_CANCEL =
      { presented :=
          [Presented.question parent (if title.isEmpty then "Select an option" else title)
            message (QMessageBox.Ok ||| QMessageBox.Cancel) QMessageBox.Cancel]
        result := Except.ok
          (if tk.question parent (if title.isEmpty then "Select an option" else title)
              message (QMessageBox.Ok ||| QMessageBox.Cancel) QMessageBox.Cancel
              = (QMessageBox.Yes : Int) then ConfirmResult.YES
            else if tk.question parent (if title.isEmpty then "Select an option" else title)
              message (QMessageBox.Ok ||| QMessageBox.Cancel) QMessageBox.Cancel
              = (QMessageBox.No : Int) then ConfirmResult.NO
            else ConfirmResult.CANCEL) } := by
  simp only [showConfirmDialog, Dialog.pure_def, Dialog.bind_def, Dialog.andThen,
    Dialog.present, QMessageBox.question, QInputDialog.getText,
      QMessageBox.information, QMessageBox.warning, QMessageBox.critical, QMessageBox.about,
      runOnQtGuiThread, QString.fromStdString]
  simp
  split_ifs <;> simp

theorem showConfirmDialog_shape (tk : Toolkit) (parent : Option QWidget)
    (message title : String) (type : ConfirmType)
    (hType : type = ConfirmType.YES_NO ∨ type = ConfirmType.YES_NO_CANCEL
      ∨ type = ConfirmType.OK_CANCEL) :
    ∃ titleToUse buttons defaultButton,
      (showConfirmDialog tk parent message title type).presented =
        [Presented.question parent titleToUse message buttons defaultButton]
      ∧ (showConfirmDialog tk parent message title type).result =
        Except.ok
          (if tk.question parent titleToUse message buttons defaultButton
              = (QMessageBox.Yes : Int) then ConfirmResult.YES
            else if tk.question parent titleToUse message buttons defaultButton
              = (QMessageBox.No : Int) then ConfirmResult.NO
            else ConfirmResult.CANCEL) := by
  rcases hType with h | h | h <;> subst h
  · exact ⟨_, _, _, by rw [showConfirmDialog_YES_NO], by rw [showConfirmDialog_YES_NO]⟩
  · exact ⟨_, _, _, by rw [showConfirmDialog_YES_NO_CANCEL],
      by rw [showConfirmDialog_YES_NO_CANCEL]⟩
  · exact ⟨_, _, _, by rw [showConfirmDialog_OK_CANCEL], by rw [showConfirmDialog_OK_CANCEL]⟩

theorem Dialog.ok_andThen {α β : Type} (a : α) (f : α → Dialog β) :
    Dialog.andThen { presented := [], result := Except.ok a } f = f a := rfl

theorem Dialog.andThen_ok {α : Type} (x : Dialog α) :
    Dialog.andThen x (fun r => { presented := [], result := Except.ok r }) = x := by
  obtain ⟨p, r⟩ := x
  cases r <;> simp [Dialog.andThen]

theorem showMessageDialog_illegal (parent : Option QWidget)
    (message title : String) (raw : Int) :
    showMessageDialog parent message title (MessageType.illegal raw) =
      { presented := []
        result := Except.error "GOptionPane::showMessageDialog: Illegal dialog type" } := by
  simp [showMessageDialog, Dialog.bind_def, Dialog.andThen, error]

theorem showMessageDialog_supported (parent : Option QWidget) (message title : String) :
    showMessageDialog parent message title MessageType.PLAIN =
        { presented := [Presented.information parent
            (if title.isEmpty then "Message" else title) message]
          result := Except.ok () }
    ∧ showMessageDialog parent message title MessageType.INFORMATION =
        { presented := [Presented.information parent
            (if title.isEmpty then "Message" else title) message]
          result := Except.ok () }
    ∧ showMessageDialog parent message title MessageType.QUESTION =
        { presented := [Presented.information parent
            (if title.isEmpty then "Message" else title) message]
          result := Except.ok () }
    ∧ showMessageDialog parent message title MessageType.WARNING =
        { presented := [Presented.warning parent
            (if title.isEmpty then "Message" else title) message]
          result := Except.ok () }
    ∧ showMessageDialog parent message title MessageType.ERROR =
        { presented := [Presented.critical parent
            (if title.isEmpty then "Message" else title) message]
          result := Except.ok () }
    ∧ showMessageDialog parent message title MessageType.ABOUT =
        { presented := [Presented.about parent
            (if title.isEmpty then "Message" else title) message]
          result := Except.ok () } := by
  refine ⟨?_, ?_, ?_, ?_, ?_, ?_⟩ <;>
    simp [showMessageDialog, Dialog.pure_def, Dialog.bind_def, Dialog.andThen,
      Dialog.present, QMessageBox.question, QInputDialog.getText,
      QMessageBox.information, QMessageBox.warning, QMessageBox.critical, QMessageBox.about,
      runOnQtGuiThread, QString.fromStdString]

theorem showInputDialog_eq (tk : Toolkit) (parent : Option QWidget)
    (message title initialValue : String) :
    showInputDialog tk parent message title initialValue =
      { presented := [Presented.getText parent (if title.isEmpty then "Type a value" else title)
          message EchoMode.Normal initialValue]
        result := Except.ok (tk.getText parent (if title.isEmpty then "Type a value" else title)
          message EchoMode.Normal initialValue) } := by
  simp [showInputDialog, Dialog.pure_def, Dialog.bind_def, Dialog.andThen,
      Dialog.present, QMessageBox.question, QInputDialog.getText,
      QMessageBox.information, QMessageBox.warning, QMessageBox.critical, QMessageBox.about,
      runOnQtGuiThread, QString.fromStdString, QString.toStdString]

theorem foldl_addButton (options : List String) (box : QMessageBox) :
    options.foldl (fun b option => b.addButton option ButtonRole.ActionRole) box =
      { box with customButtons :=
          box.customButtons ++ options.map (fun option => (option, ButtonRole.ActionRole)) } := by
  induction options generalizing box with
  | nil => simp
  | cons o os ih =>
    rw [List.foldl_cons, ih]
    simp [QMessageBox.addButton]

theorem Vector.get_inRange (v : List String) (i : Nat) (h : i < v.length) :
    Vector.get v (i : Int) = { presented := [], result := Except.ok (v.get ⟨i, h⟩) } := by
  have h1 : ¬ ((i : Int) < 0 ∨ (i : Int) ≥ (v.length : Int)) := by omega
  simp only [Vector.get, if_neg h1, Int.toNat_ofNat]
  rw [List.getElem?_eq_getElem h]
  rfl

theorem showOptionDialog_eq (CLOSED_OPTION : Int) (tk : Toolkit) (parent : Option QWidget)
    (message : String) (options : List String) (title initiallySelected : String) :
    showOptionDialog CLOSED_OPTION tk parent message options title initiallySelected =
      Dialog.andThen
        (Dialog.present
          (Presented.exec (optionBox parent message
            (if title.isEmpty then "Select an option" else title) options))
          (tk.exec (optionBox parent message
            (if title.isEmpty then "Select an option" else title) options)))
        (fun index =>
          if index = CLOSED_OPTION ∨ index < 0 ∨ index ≥ (options.length : Int) then
            { presented := [], result := Except.ok "" }
          else Vector.get options index) := by
  cases parent <;>
  simp [showOptionDialog, Dialog.pure_def, Dialog.bind_def, Dialog.ok_andThen,
      Dialog.andThen_ok, QMessageBox.exec, runOnQtGuiThread, QString.fromStdString, foldl_addButton, optionBox,
      QMessageBox.new, QMessageBox.setParent, QMessageBox.setText, QMessageBox.setWindowTitle,
      QMessageBox.setAttribute]

/-- What `showOptionDialog` does, by the index that `exec()` reports: outside the valid
indices, or at the closed sentinel, the empty text. -/
theorem showOptionDialog_empty (CLOSED_OPTION : Int) (tk : Toolkit) (parent : Option QWidget)
    (message : String) (options : List String) (title initiallySelected : String)
    (h : tk.exec (optionBox parent message
          (if title.isEmpty then "Select an option" else title) options) = CLOSED_OPTION
      ∨ tk.exec (optionBox parent message
          (if title.isEmpty then "Select an option" else title) options) < 0
      ∨ (options.length : Int) ≤ tk.exec (optionBox parent message
          (if title.isEmpty then "Select an option" else title) options)) :
    showOptionDialog CLOSED_OPTION tk parent message options title initiallySelected =
      { presented := [Presented.exec (optionBox parent message
          (if title.isEmpty then "Select an option" else title) options)]
        result := Except.ok "" } := by
  rw [showOptionDialog_eq]
  simp only [Dialog.andThen, Dialog.present, ge_iff_le, if_pos h]
  rfl

/-- What `showOptionDialog` does, by the index that `exec()` reports: at a valid index
that is not the closed sentinel, the option at that index. -/
theorem showOptionDialog_chosen (CLOSED_OPTION : Int) (tk : Toolkit) (parent : Option QWidget)
    (message : String) (options : List String) (title initiallySelected : String)
    (i : Nat) (hi : i < options.length)
    (hExec : tk.exec (optionBox parent message
          (if title.isEmpty then "Select an option" else title) options) = (i : Int))
    (hClosed : (i : Int) ≠ CLOSED_OPTION) :
    showOptionDialog CLOSED_OPTION tk parent message options title initiallySelected =
      { presented := [Presented.exec (optionBox parent message
          (if title.isEmpty then "Select an option" else title) options)]
        result := Except.ok (options.get ⟨i, hi⟩) } := by
  have hcond : ¬ ((i : Int) = CLOSED_OPTION ∨ (i : Int) < 0
      ∨ (options.length : Int) ≤ (i : Int)) := by
    rintro (h | h | h)
    · exact hClosed h
    · omega
    · omega
  rw [showOptionDialog_eq]
  simp only [Dialog.andThen, Dialog.present, ge_iff_le, hExec, if_neg hcond,
    Vector.get_inRange options i hi]
  rfl

/-- Whatever index `exec()` reports, `showOptionDialog` has run exactly that one box. -/
theorem showOptionDialog_presented (CLOSED_OPTION : Int) (tk : Toolkit)
    (parent : Option QWidget) (message : String) (options : List String)
    (title initiallySelected : String) :
    (showOptionDialog CLOSED_OPTION tk parent message options title
        initiallySelected).presented =
      [Presented.exec (optionBox parent message
        (if title.isEmpty then "Select an option" else title) options)] := by
  by_cases h : tk.exec (optionBox parent message
        (if title.isEmpty then "Select an option" else title) options) = CLOSED_OPTION
    ∨ tk.exec (optionBox parent message
        (if title.isEmpty then "Select an option" else title) options) < 0
    ∨ (options.length : Int) ≤ tk.exec (optionBox parent message
        (if title.isEmpty then "Select an option" else title) options)
  · rw [showOptionDialog_empty CLOSED_OPTION tk parent message options title
      initiallySelected h]
  · have h0 : 0 ≤ tk.exec (optionBox parent message
        (if title.isEmpty then "Select an option" else title) options) := by omega
    obtain ⟨i, hi⟩ := Int.eq_ofNat_of_zero_le h0
    have hlt : i < options.length := by omega
    have hne : (i : Int) ≠ CLOSED_OPTION := by
      intro hc
      exact h (Or.inl (hi.trans hc))
    rw [showOptionDialog_chosen CLOSED_OPTION tk parent message options title
      initiallySelected i hlt hi hne]

/-! ## The claims -/

/-- C1: for each supported confirm type, every parent, message and title and every user
interaction, `showConfirmDialog` presents one question dialog and returns a value (it
raises nothing); the value is `YES` when the toolkit reports `QMessageBox::Yes` for that
dialog, `NO` when it reports `QMessageBox::No`, and `CANCEL` for every other code, a
`QMessageBox::Cancel` among them. -/
theorem showConfirmDialog_maps_outcome (tk : Toolkit) (parent : Option QWidget)
    (message title : String) (type : ConfirmType)
    (hType : type = ConfirmType.YES_NO ∨ type = ConfirmType.YES_NO_CANCEL
      ∨ type = ConfirmType.OK_CANCEL) :
    ∃ titleToUse buttons defaultButton,
      (showConfirmDialog tk parent message title type).presented =
        [Presented.question parent titleToUse message buttons defaultButton]
      ∧ (∃ r, (showConfirmDialog tk parent message title type).result = Except.ok r)
      ∧ (tk.question parent titleToUse message buttons defaultButton = (QMessageBox.Yes : Int) →
          (showConfirmDialog tk parent message title type).result
            = Except.ok ConfirmResult.YES)
      ∧ (tk.question parent titleToUse message buttons defaultButton = (QMessageBox.No : Int) →
          (showConfirmDialog tk parent message title type).result
            = Except.ok ConfirmResult.NO)
      ∧ (tk.question parent titleToUse message buttons defaultButton
            = (QMessageBox.Cancel : Int) →
          (showConfirmDialog tk parent message title type).result
            = Except.ok ConfirmResult.CANCEL)
      ∧ (tk.question parent titleToUse message buttons defaultButton ≠ (QMessageBox.Yes : Int) →
          tk.question parent titleToUse message buttons defaultButton
            ≠ (QMessageBox.No : Int) →
          (showConfirmDialog tk parent message title type).result
            = Except.ok ConfirmResult.CANCEL) := by
  obtain ⟨t, b, d, hp, hr⟩ := showConfirmDialog_shape tk parent message title type hType
  refine ⟨t, b, d, hp, ⟨_, hr⟩, ?_, ?_, ?_, ?_⟩
  · intro h
    rw [hr, if_pos h]
  · intro h
    have hne : tk.question parent t message b d ≠ (QMessageBox.Yes : Int) := by
      rw [h]; decide
    rw [hr, if_neg hne, if_pos h]
  · intro h
    have hy : tk.question parent t message b d ≠ (QMessageBox.Yes : Int) := by
      rw [h]; decide
    have hn : tk.question parent t message b d ≠ (QMessageBox.No : Int) := by
      rw [h]; decide
    rw [hr, if_neg hy, if_neg hn]
  · intro hy hn
    rw [hr, if_neg hy, if_neg hn]

/-- C1, at an input: a YES_NO dialog answered with `QMessageBox::Yes` returns `YES`. -/
theorem showConfirmDialog_maps_outcome_witness :
    (ConfirmType.YES_NO = ConfirmType.YES_NO ∨ ConfirmType.YES_NO = ConfirmType.YES_NO_CANCEL
      ∨ ConfirmType.YES_NO = ConfirmType.OK_CANCEL)
    ∧ ∃ titleToUse buttons defaultButton,
      (showConfirmDialog (Toolkit.reporting QMessageBox.Yes) none "Quit?" ""
          ConfirmType.YES_NO).presented =
        [Presented.question none titleToUse "Quit?" buttons defaultButton]
      ∧ (∃ r, (showConfirmDialog (Toolkit.reporting QMessageBox.Yes) none "Quit?" ""
          ConfirmType.YES_NO).result = Except.ok r)
      ∧ ((Toolkit.reporting QMessageBox.Yes).question none titleToUse "Quit?" buttons
            defaultButton = (QMessageBox.Yes : Int) →
          (showConfirmDialog (Toolkit.reporting QMessageBox.Yes) none "Quit?" ""
            ConfirmType.YES_NO).result = Except.ok ConfirmResult.YES)
      ∧ ((Toolkit.reporting QMessageBox.Yes).question none titleToUse "Quit?" buttons
            defaultButton = (QMessageBox.No : Int) →
          (showConfirmDialog (Toolkit.reporting QMessageBox.Yes) none "Quit?" ""
            ConfirmType.YES_NO).result = Except.ok ConfirmResult.NO)
      ∧ ((Toolkit.reporting QMessageBox.Yes).question none titleToUse "Quit?" buttons
            defaultButton = (QMessageBox.Cancel : Int) →
          (showConfirmDialog (Toolkit.reporting QMessageBox.Yes) none "Quit?" ""
            ConfirmType.YES_NO).result = Except.ok ConfirmResult.CANCEL)
      ∧ ((Toolkit.reporting QMessageBox.Yes).question none titleToUse "Quit?" buttons
            defaultButton ≠ (QMessageBox.Yes : Int) →
          (Toolkit.reporting QMessageBox.Yes).question none titleToUse "Quit?" buttons
            defaultButton ≠ (QMessageBox.No : Int) →
          (showConfirmDialog (Toolkit.reporting QMessageBox.Yes) none "Quit?" ""
            ConfirmType.YES_NO).result = Except.ok ConfirmResult.CANCEL) :=
  ⟨Or.inl rfl,
    showConfirmDialog_maps_outcome (Toolkit.reporting QMessageBox.Yes) none "Quit?" ""
      ConfirmType.YES_NO (Or.inl rfl)⟩

/-- C2: what the code does where the claim fails.  In an OK_CANCEL dialog a click on
the OK button (the toolkit reports `QMessageBox::Ok`) makes `showConfirmDialog` return
`CANCEL`, the very result of a click on Cancel (the toolkit reports
`QMessageBox::Cancel`): the two clicks give the same result. -/
theorem showConfirmDialog_OK_click_returns_CANCEL (parent : Option QWidget)
    (message title : String) :
    (showConfirmDialog (Toolkit.reporting QMessageBox.Ok) parent message title
        ConfirmType.OK_CANCEL).result = Except.ok ConfirmResult.CANCEL
    ∧ (showConfirmDialog (Toolkit.reporting QMessageBox.Cancel) parent message title
        ConfirmType.OK_CANCEL).result = Except.ok ConfirmResult.CANCEL
    ∧ (showConfirmDialog (Toolkit.reporting QMessageBox.Ok) parent message title
        ConfirmType.OK_CANCEL).result
      = (showConfirmDialog (Toolkit.reporting QMessageBox.Cancel) parent message title
        ConfirmType.OK_CANCEL).result := by
  have hOk : (showConfirmDialog (Toolkit.reporting QMessageBox.Ok) parent message title
      ConfirmType.OK_CANCEL).result = Except.ok ConfirmResult.CANCEL := by
    rw [showConfirmDialog_OK_CANCEL]
    simp [Toolkit.reporting, QMessageBox.Ok, QMessageBox.Yes, QMessageBox.No]
  have hCancel : (showConfirmDialog (Toolkit.reporting QMessageBox.Cancel) parent message title
      ConfirmType.OK_CANCEL).result = Except.ok ConfirmResult.CANCEL := by
    rw [showConfirmDialog_OK_CANCEL]
    simp [Toolkit.reporting, QMessageBox.Cancel, QMessageBox.Yes, QMessageBox.No]
  exact ⟨hOk, hCancel, hOk.trans hCancel.symm⟩

/-- C3: `showConfirmDialog` raises exactly when its type is none of YES_NO, YES_NO_CANCEL
and OK_CANCEL, and `showMessageDialog` exactly when its type is none of PLAIN,
INFORMATION, ERROR, WARNING, QUESTION and ABOUT; when they raise, the error is the
operation's "Illegal dialog type" error, no dialog has been presented and there is no
result. -/
theorem illegal_dialog_type_raises (tk : Toolkit) (parent : Option QWidget)
    (message title : String) (ctype : ConfirmType) (mtype : MessageType) :
    ((∃ e, (showConfirmDialog tk parent message title ctype).result = Except.error e)
        ↔ (ctype ≠ ConfirmType.YES_NO ∧ ctype ≠ ConfirmType.YES_NO_CANCEL
            ∧ ctype ≠ ConfirmType.OK_CANCEL))
    ∧ ((ctype ≠ ConfirmType.YES_NO ∧ ctype ≠ ConfirmType.YES_NO_CANCEL
            ∧ ctype ≠ ConfirmType.OK_CANCEL) →
        showConfirmDialog tk parent message title ctype =
          { presented := []
            result := Except.error "GOptionPane::showConfirmDialog: Illegal dialog type" })
    ∧ ((∃ e, (showMessageDialog parent message title mtype).result = Except.error e)
        ↔ (mtype ≠ MessageType.PLAIN ∧ mtype ≠ MessageType.INFORMATION
            ∧ mtype ≠ MessageType.ERROR ∧ mtype ≠ MessageType.WARNING
            ∧ mtype ≠ MessageType.QUESTION ∧ mtype ≠ MessageType.ABOUT))
    ∧ ((mtype ≠ MessageType.PLAIN ∧ mtype ≠ MessageType.INFORMATION
            ∧ mtype ≠ MessageType.ERROR ∧ mtype ≠ MessageType.WARNING
            ∧ mtype ≠ MessageType.QUESTION ∧ mtype ≠ MessageType.ABOUT) →
        showMessageDialog parent message title mtype =
          { presented := []
            result := Except.error "GOptionPane::showMessageDialog: Illegal dialog type" }) := by
  refine ⟨?_, ?_, ?_, ?_⟩
  · cases ctype with
    | illegal raw => simp [showConfirmDialog_illegal]
    | YES_NO => simp [showConfirmDialog_YES_NO]
    | YES_NO_CANCEL => simp [showConfirmDialog_YES_NO_CANCEL]
    | OK_CANCEL => simp [showConfirmDialog_OK_CANCEL]
  · cases ctype with
    | illegal raw => intro _; exact showConfirmDialog_illegal tk parent message title raw
    | YES_NO => simp
    | YES_NO_CANCEL => simp
    | OK_CANCEL => simp
  · obtain ⟨h1, h2, h3, h4, h5, h6⟩ := showMessageDialog_supported parent message title
    cases mtype with
    | illegal raw => simp [showMessageDialog_illegal]
    | PLAIN => simp [h1]
    | INFORMATION => simp [h2]
    | QUESTION => simp [h3]
    | WARNING => simp [h4]
    | ERROR => simp [h5]
    | ABOUT => simp [h6]
  · cases mtype with
    | illegal raw => intro _; exact showMessageDialog_illegal parent message title raw
    | PLAIN => simp
    | INFORMATION => simp
    | QUESTION => simp
    | WARNING => simp
    | ERROR => simp
    | ABOUT => simp

/-- C3, at an input: a confirm dialog and a message dialog of an illegal type raise the
"Illegal dialog type" error with no dialog presented. -/
theorem illegal_dialog_type_raises_witness :
    showConfirmDialog (Toolkit.reporting QMessageBox.Yes) none "Quit?" ""
        (ConfirmType.illegal 7) =
      { presented := []
        result := Except.error "GOptionPane::showConfirmDialog: Illegal dialog type" }
    ∧ showMessageDialog none "Done" "" (MessageType.illegal 7) =
      { presented := []
        result := Except.error "GOptionPane::showMessageDialog: Illegal dialog type" } :=
  ⟨(illegal_dialog_type_raises (Toolkit.reporting QMessageBox.Yes) none "Quit?" ""
      (ConfirmType.illegal 7) (MessageType.illegal 7)).2.1 (by decide),
   (illegal_dialog_type_raises (Toolkit.reporting QMessageBox.Yes) none "Done" ""
      (ConfirmType.illegal 7) (MessageType.illegal 7)).2.2.2 (by decide)⟩

/-- C4: for every list of options and every index that `exec()` reports,
`showOptionDialog` runs one message box whose custom buttons are labelled with the
options, one per entry and in order, and returns a text (it raises nothing): the option
`options[i]` when the reported index is `i` with `0 <= i < count` and `i` is not the
closed sentinel, and the empty text when the reported index is the closed sentinel,
negative, or at least `count`. -/
theorem showOptionDialog_result (CLOSED_OPTION : Int) (tk : Toolkit)
    (parent : Option QWidget) (message : String) (options : List String)
    (title initiallySelected : String) :
    ∃ box : QMessageBox,
      (showOptionDialog CLOSED_OPTION tk parent message options title
          initiallySelected).presented = [Presented.exec box]
      ∧ box.customButtons.map Prod.fst = options
      ∧ (∀ (i : Nat) (hi : i < options.length),
          tk.exec box = (i : Int) → (i : Int) ≠ CLOSED_OPTION →
          (showOptionDialog CLOSED_OPTION tk parent message options title
            initiallySelected).result = Except.ok (options.get ⟨i, hi⟩))
      ∧ ((tk.exec box = CLOSED_OPTION ∨ tk.exec box < 0
            ∨ (options.length : Int) ≤ tk.exec box) →
          (showOptionDialog CLOSED_OPTION tk parent message options title
            initiallySelected).result = Except.ok "")
      ∧ ∃ text, (showOptionDialog CLOSED_OPTION tk parent message options title
            initiallySelected).result = Except.ok text := by
  have hChosen := showOptionDialog_chosen CLOSED_OPTION tk parent message options title
    initiallySelected
  have hEmpty := showOptionDialog_empty CLOSED_OPTION tk parent message options title
    initiallySelected
  refine ⟨optionBox parent message (if title.isEmpty then "Select an option" else title)
    options, ?_, ?_, ?_, ?_, ?_⟩
  · exact showOptionDialog_presented CLOSED_OPTION tk parent message options title
      initiallySelected
  · simp [optionBox, Function.comp_def]
  · intro i hi hExec hClosed
    rw [hChosen i hi hExec hClosed]
  · intro h
    rw [hEmpty h]
  · by_cases h : tk.exec (optionBox parent message
          (if title.isEmpty then "Select an option" else title) options) = CLOSED_OPTION
      ∨ tk.exec (optionBox parent message
          (if title.isEmpty then "Select an option" else title) options) < 0
      ∨ (options.length : Int) ≤ tk.exec (optionBox parent message
          (if title.isEmpty then "Select an option" else title) options)
    · exact ⟨_, by rw [hEmpty h]⟩
    · have h0 : 0 ≤ tk.exec (optionBox parent message
          (if title.isEmpty then "Select an option" else title) options) := by omega
      obtain ⟨i, hi⟩ := Int.eq_ofNat_of_zero_le h0
      have hlt : i < options.length := by omega
      have hne : (i : Int) ≠ CLOSED_OPTION := by
        intro hc
        exact h (Or.inl (hi.trans hc))
      exact ⟨_, by rw [hChosen i hlt hi hne]⟩

/-- C4, at an input: with the options A, B, C and a closed sentinel of -1, the click on
the button for B (index 1) returns "B". -/
theorem showOptionDialog_result_witness :
    (showOptionDialog (-1) (Toolkit.reporting 1) none "Pick one" ["A", "B", "C"] ""
        "").result = Except.ok "B" := by
  obtain ⟨box, _, _, h, _, _⟩ :=
    showOptionDialog_result (-1) (Toolkit.reporting 1) none "Pick one" ["A", "B", "C"] "" ""
  exact h 1 (by decide) rfl (by decide)

/-- C5: for each of the six supported message types, `showMessageDialog` presents exactly
one toolkit dialog and returns normally; the dialog is an `information` box for PLAIN,
INFORMATION and QUESTION, a `warning` box for WARNING, a `critical` box for ERROR and an
`about` box for ABOUT, and it carries the caller's parent and message unchanged. -/
theorem showMessageDialog_style (parent : Option QWidget) (message title : String) :
    ∃ titleToUse,
      showMessageDialog parent message title MessageType.PLAIN =
          { presented := [Presented.information parent titleToUse message]
            result := Except.ok () }
      ∧ showMessageDialog parent message title MessageType.INFORMATION =
          { presented := [Presented.information parent titleToUse message]
            result := Except.ok () }
      ∧ showMessageDialog parent message title MessageType.QUESTION =
          { presented := [Presented.information parent titleToUse message]
            result := Except.ok () }
      ∧ showMessageDialog parent message title MessageType.WARNING =
          { presented := [Presented.warning parent titleToUse message]
            result := Except.ok () }
      ∧ showMessageDialog parent message title MessageType.ERROR =
          { presented := [Presented.critical parent titleToUse message]
            result := Except.ok () }
      ∧ showMessageDialog parent message title MessageType.ABOUT =
          { presented := [Presented.about parent titleToUse message]
            result := Except.ok () } :=
  ⟨_, showMessageDialog_supported parent message title⟩

/-- C6: for every message, title and initial value, `showInputDialog` presents one
single-line text prompt (echo mode `Normal`) pre-filled with the initial value and
returns exactly the text the toolkit reports for it (it raises nothing); so a prompt
submitted unmodified returns the initial value, and a prompt for which the toolkit
reports the empty text returns the empty text. -/
theorem showInputDialog_result (tk : Toolkit) (parent : Option QWidget)
    (message title initialValue : String) :
    ∃ titleToUse,
      (showInputDialog tk parent message title initialValue).presented =
        [Presented.getText parent titleToUse message EchoMode.Normal initialValue]
      ∧ (showInputDialog tk parent message title initialValue).result =
        Except.ok (tk.getText parent titleToUse message EchoMode.Normal initialValue)
      ∧ (tk.getText parent titleToUse message EchoMode.Normal initialValue = initialValue →
          (showInputDialog tk parent message title initialValue).result
            = Except.ok initialValue)
      ∧ (tk.getText parent titleToUse message EchoMode.Normal initialValue = "" →
          (showInputDialog tk parent message title initialValue).result = Except.ok "") := by
  refine ⟨if title.isEmpty then "Type a value" else title, ?_, ?_, ?_, ?_⟩
  · rw [showInputDialog_eq]
  · rw [showInputDialog_eq]
  · intro h
    rw [showInputDialog_eq, h]
  · intro h
    rw [showInputDialog_eq, h]

/-- C6, at an input: a prompt pre-filled with "Ada" and submitted unmodified returns
"Ada". -/
theorem showInputDialog_result_witness :
    (showInputDialog Toolkit.submitting none "Your name?" "" "Ada").result
      = Except.ok "Ada" := by
  obtain ⟨t, _, _, h, _⟩ :=
    showInputDialog_result Toolkit.submitting none "Your name?" "" "Ada"
  exact h rfl

/-- C7: whenever the default message type that goptionpane.h declares is one of the six
supported types, both overloads of `showTextFileDialog` present, for every parent,
message, title, rows and cols, exactly one plain message box carrying the message (under
the parent, or under no parent in the overload without one) and then raise the "not
implemented" error: they never return normally. -/
theorem showTextFileDialog_not_implemented (defaultType : MessageType)
    (hDefault : defaultType = MessageType.PLAIN ∨ defaultType = MessageType.INFORMATION
      ∨ defaultType = MessageType.ERROR ∨ defaultType = MessageType.WARNING
      ∨ defaultType = MessageType.QUESTION ∨ defaultType = MessageType.ABOUT)
    (parent : Option QWidget) (message title : String) (rows cols : Int) :
    (∃ box title1 text1,
      (box = Presented.information parent title1 text1
        ∨ box = Presented.warning parent title1 text1
        ∨ box = Presented.critical parent title1 text1
        ∨ box = Presented.about parent title1 text1)
      ∧ text1 = message
      ∧ showTextFileDialog defaultType parent message title rows cols =
        { presented := [box]
          result := Except.error "GOptionPane::showTextFileDialog: not implemented" })
    ∧ (∃ box title1 text1,
      (box = Presented.information none title1 text1
        ∨ box = Presented.warning none title1 text1
        ∨ box = Presented.critical none title1 text1
        ∨ box = Presented.about none title1 text1)
      ∧ text1 = message
      ∧ showTextFileDialogNoParent defaultType message title rows cols =
        { presented := [box]
          result := Except.error "GOptionPane::showTextFileDialog: not implemented" }) := by
  have key : ∀ p : Option QWidget, ∀ t : String, ∃ box title1 text1,
      (box = Presented.information p title1 text1
        ∨ box = Presented.warning p title1 text1
        ∨ box = Presented.critical p title1 text1
        ∨ box = Presented.about p title1 text1)
      ∧ text1 = message
      ∧ showMessageDialog p message t defaultType =
        { presented := [box], result := Except.ok () } := by
    intro p t
    obtain ⟨h1, h2, h3, h4, h5, h6⟩ := showMessageDialog_supported p message t
    rcases hDefault with h | h | h | h | h | h <;> subst h
    · exact ⟨_, _, _, Or.inl rfl, rfl, h1⟩
    · exact ⟨_, _, _, Or.inl rfl, rfl, h2⟩
    · exact ⟨_, _, _, Or.inr (Or.inr (Or.inl rfl)), rfl, h5⟩
    · exact ⟨_, _, _, Or.inr (Or.inl rfl), rfl, h4⟩
    · exact ⟨_, _, _, Or.inl rfl, rfl, h3⟩
    · exact ⟨_, _, _, Or.inr (Or.inr (Or.inr rfl)), rfl, h6⟩
  constructor
  · obtain ⟨box, t1, x1, hbox, hx, hcall⟩ :=
      key parent (if title.isEmpty then "Text file contents" else title)
    refine ⟨box, t1, x1, hbox, hx, ?_⟩
    simp only [showTextFileDialog, Dialog.bind_def, hcall]
    rfl
  · obtain ⟨box, t1, x1, hbox, hx, hcall⟩ :=
      key none (if title.isEmpty then "Text file contents" else title)
    refine ⟨box, t1, x1, hbox, hx, ?_⟩
    simp only [showTextFileDialogNoParent, showMessageDialogNoParent, Dialog.bind_def, hcall]
    rfl

/-- C7, at an input: with PLAIN as the default message type, the text file dialog
presents one information box with the message and raises "not implemented". -/
theorem showTextFileDialog_not_implemented_witness :
    (MessageType.PLAIN = MessageType.PLAIN ∨ MessageType.PLAIN = MessageType.INFORMATION
      ∨ MessageType.PLAIN = MessageType.ERROR ∨ MessageType.PLAIN = MessageType.WARNING
      ∨ MessageType.PLAIN = MessageType.QUESTION ∨ MessageType.PLAIN = MessageType.ABOUT)
    ∧ (∃ box title1 text1,
      (box = Presented.information (some 5) title1 text1
        ∨ box = Presented.warning (some 5) title1 text1
        ∨ box = Presented.critical (some 5) title1 text1
        ∨ box = Presented.about (some 5) title1 text1)
      ∧ text1 = "notes.txt"
      ∧ showTextFileDialog MessageType.PLAIN (some 5) "notes.txt" "" 20 80 =
        { presented := [box]
          result := Except.error "GOptionPane::showTextFileDialog: not implemented" }) :=
  ⟨Or.inl rfl,
    (showTextFileDialog_not_implemented MessageType.PLAIN (Or.inl rfl) (some 5) "notes.txt" ""
      20 80).1⟩

/-- C8: for a supported confirm type and a supported message type, the title that
`showConfirmDialog`, `showInputDialog`, `showMessageDialog` and `showOptionDialog` hand to
the toolkit is the caller's title when that title is not empty, and otherwise the
default of the operation: "Select an option" for confirm and option dialogs, "Type a
value" for input dialogs, "Message" for message dialogs. -/
theorem title_handed_to_toolkit (CLOSED_OPTION : Int) (tk : Toolkit)
    (parent : Option QWidget) (message title initialValue initiallySelected : String)
    (options : List String) (ctype : ConfirmType) (mtype : MessageType)
    (hConfirm : ctype = ConfirmType.YES_NO ∨ ctype = ConfirmType.YES_NO_CANCEL
      ∨ ctype = ConfirmType.OK_CANCEL)
    (hMessage : mtype = MessageType.PLAIN ∨ mtype = MessageType.INFORMATION
      ∨ mtype = MessageType.ERROR ∨ mtype = MessageType.WARNING
      ∨ mtype = MessageType.QUESTION ∨ mtype = MessageType.ABOUT) :
    (title ≠ "" →
      (showConfirmDialog tk parent message title ctype).presented.map Presented.title
          = [title]
      ∧ (showInputDialog tk parent message title initialValue).presented.map Presented.title
          = [title]
      ∧ (showMessageDialog parent message title mtype).presented.map Presented.title
          = [title]
      ∧ (showOptionDialog CLOSED_OPTION tk parent message options title
          initiallySelected).presented.map Presented.title = [title])
    ∧ (title = "" →
      (showConfirmDialog tk parent message title ctype).presented.map Presented.title
          = ["Select an option"]
      ∧ (showInputDialog tk parent message title initialValue).presented.map Presented.title
          = ["Type a value"]
      ∧ (showMessageDialog parent message title mtype).presented.map Presented.title
          = ["Message"]
      ∧ (showOptionDialog CLOSED_OPTION tk parent message options title
          initiallySelected).presented.map Presented.title = ["Select an option"]) := by
  have hConfirmTitle :
      (showConfirmDialog tk parent message title ctype).presented.map Presented.title
        = [if title.isEmpty then "Select an option" else title] := by
    rcases hConfirm with h | h | h <;> subst h
    · rw [showConfirmDialog_YES_NO]; rfl
    · rw [showConfirmDialog_YES_NO_CANCEL]; rfl
    · rw [showConfirmDialog_OK_CANCEL]; rfl
  have hInputTitle :
      (showInputDialog tk parent message title initialValue).presented.map Presented.title
        = [if title.isEmpty then "Type a value" else title] := by
    rw [showInputDialog_eq]; rfl
  have hMessageTitle :
      (showMessageDialog parent message title mtype).presented.map Presented.title
        = [if title.isEmpty then "Message" else title] := by
    obtain ⟨h1, h2, h3, h4, h5, h6⟩ := showMessageDialog_supported parent message title
    rcases hMessage with h | h | h | h | h | h <;> subst h
    · rw [h1]; rfl
    · rw [h2]; rfl
    · rw [h5]; rfl
    · rw [h4]; rfl
    · rw [h3]; rfl
    · rw [h6]; rfl
  have hOptionTitle :
      (showOptionDialog CLOSED_OPTION tk parent message options title
          initiallySelected).presented.map Presented.title
        = [if title.isEmpty then "Select an option" else title] := by
    rw [showOptionDialog_presented]
    rfl
  constructor
  · intro hne
    have hEmpty : title.isEmpty = false := by
      cases hb : title.isEmpty
      · rfl
      · exact absurd ((String.isEmpty_iff title).mp hb) hne
    rw [hConfirmTitle, hInputTitle, hMessageTitle, hOptionTitle, hEmpty]
    simp
  · intro he
    subst he
    rw [hConfirmTitle, hInputTitle, hMessageTitle, hOptionTitle]
    exact ⟨rfl, rfl, rfl, rfl⟩

/-- C8, at an input: a confirm dialog with an empty title is handed to the toolkit as
"Select an option", a message dialog with an empty title as "Message". -/
theorem title_handed_to_toolkit_witness :
    (showConfirmDialog (Toolkit.reporting 0) none "Quit?" ""
        ConfirmType.OK_CANCEL).presented.map Presented.title = ["Select an option"]
    ∧ (showInputDialog (Toolkit.reporting 0) none "Quit?" "" "Ada").presented.map
        Presented.title = ["Type a value"]
    ∧ (showMessageDialog none "Quit?" "" MessageType.WARNING).presented.map Presented.title
        = ["Message"]
    ∧ (showOptionDialog (-1) (Toolkit.reporting 0) none "Quit?" ["A", "B"] ""
        "A").presented.map Presented.title = ["Select an option"] :=
  (title_handed_to_toolkit (-1) (Toolkit.reporting 0) none "Quit?" "" "Ada" "A" ["A", "B"]
    ConfirmType.OK_CANCEL MessageType.WARNING (Or.inr (Or.inr rfl))
    (Or.inr (Or.inr (Or.inr (Or.inl rfl))))).2 rfl

/-- C10: the button set and the default button that `showConfirmDialog` hands to the
toolkit are Yes|No with default No for YES_NO, Yes|No|Cancel with default Cancel for
YES_NO_CANCEL, and Ok|Cancel with default Cancel for OK_CANCEL; of the four buttons Ok,
Yes, No, Cancel each set holds exactly the ones named, and each default button is a
button of its set. -/
theorem showConfirmDialog_buttons (tk : Toolkit) (parent : Option QWidget)
    (message title : String) :
    (∃ titleToUse,
      (showConfirmDialog tk parent message title ConfirmType.YES_NO).presented =
          [Presented.question parent titleToUse message
            (QMessageBox.Yes ||| QMessageBox.No) QMessageBox.No]
      ∧ (showConfirmDialog tk parent message title ConfirmType.YES_NO_CANCEL).presented =
          [Presented.question parent titleToUse message
            (QMessageBox.Yes ||| QMessageBox.No ||| QMessageBox.Cancel) QMessageBox.Cancel]
      ∧ (showConfirmDialog tk parent message title ConfirmType.OK_CANCEL).presented =
          [Presented.question parent titleToUse message
            (QMessageBox.Ok ||| QMessageBox.Cancel) QMessageBox.Cancel])
    ∧ [QMessageBox.Ok, QMessageBox.Yes, QMessageBox.No, QMessageBox.Cancel].filter
          (QMessageBox.testFlag (QMessageBox.Yes ||| QMessageBox.No))
        = [QMessageBox.Yes, QMessageBox.No]
    ∧ [QMessageBox.Ok, QMessageBox.Yes, QMessageBox.No, QMessageBox.Cancel].filter
          (QMessageBox.testFlag (QMessageBox.Yes ||| QMessageBox.No ||| QMessageBox.Cancel))
        = [QMessageBox.Yes, QMessageBox.No, QMessageBox.Cancel]
    ∧ [QMessageBox.Ok, QMessageBox.Yes, QMessageBox.No, QMessageBox.Cancel].filter
          (QMessageBox.testFlag (QMessageBox.Ok ||| QMessageBox.Cancel))
        = [QMessageBox.Ok, QMessageBox.Cancel]
    ∧ QMessageBox.testFlag (QMessageBox.Yes ||| QMessageBox.No) QMessageBox.No = true
    ∧ QMessageBox.testFlag (QMessageBox.Yes ||| QMessageBox.No ||| QMessageBox.Cancel)
        QMessageBox.Cancel = true
    ∧ QMessageBox.testFlag (QMessageBox.Ok ||| QMessageBox.Cancel) QMessageBox.Cancel
        = true := by
  refine ⟨⟨if title.isEmpty then "Select an option" else title, ?_, ?_, ?_⟩,
    by decide, by decide, by decide, by decide, by decide, by decide⟩
  · rw [showConfirmDialog_YES_NO]
  · rw [showConfirmDialog_YES_NO_CANCEL]
  · rw [showConfirmDialog_OK_CANCEL]

end GOptionPane
